import Mathlib

/-!
Shallow embedding of the pylas-cli command-line tool
(source: src/pylascli/main.py).

The three subcommands (convert, info, merge) are modelled as pure
functions from an environment — abstracting the external `pylas` and
`fs` libraries and the interactive terminal — to a trace of observable
events together with a process outcome.  Terminal colouring
(click.style) and the progress bar (IncrementalBar) are dropped from
the trace: only the message text and the I/O actions are recorded.
-/

namespace PylasCli

/-- One parsed LAS file, as returned by pylas.read.  The CLI inspects only
the point-format id of the parsed file (las.points_data.point_format.id);
everything else is opaque to the orchestration code, so only that field is
carried. -/
structure LasData where
  pointFormatId : Nat
  deriving DecidableEq

/-- Observable events of one CLI invocation, in order: terminal output,
reads of input files, the call to pylas.lost_dimensions, the interactive
confirmation prompt, and opening/writing an output file. -/
inductive Ev where
  | echo (msg : String)
  | readInput (path : String)
  | computeLoss (srcFmt tgtFmt : Nat)
  | prompt (msg : String)
  | openWrite (path : String)
  | writeLas (path : String) (compress : Bool)
  deriving DecidableEq

/-- Process outcome of one CLI invocation: normal return, click.Abort,
click.BadArgumentUsage, or an exception that no handler in main.py
catches (it escapes to the interpreter). -/
inductive Outcome where
  | ok
  | aborted
  | usageFault (msg : String)
  | uncaught (msg : String)
  deriving DecidableEq

/-- Process exit code for each outcome: 0 on normal return, 1 for
click.Abort, 2 for click usage errors, 1 for an uncaught exception
(the Python interpreter exits 1 after printing a traceback). -/
def exitCode : Outcome → Nat
  | .ok => 0
  | .aborted => 1
  | .usageFault _ => 2
  | .uncaught _ => 1

/-- Whether an outcome is the click.BadArgumentUsage error. -/
def Outcome.isUsage : Outcome → Bool
  | .usageFault _ => true
  | _ => false

/-- Whether an event opens or writes an output file. -/
def Ev.isWrite : Ev → Bool
  | .openWrite _ => true
  | .writeLas _ _ => true
  | _ => false

/-- A trace touches the output location iff it contains an open-for-write
or write event. -/
def hasWrite (evs : List Ev) : Bool := evs.any Ev.isWrite

/-- pat is a leading segment of the second list. -/
def beginsWith : List Char → List Char → Bool
  | [], _ => true
  | _ :: _, [] => false
  | a :: as, b :: bs => a == b && beginsWith as bs

/-- pat occurs contiguously somewhere in the second list. -/
def occursIn (pat : List Char) : List Char → Bool
  | [] => beginsWith pat []
  | c :: t => beginsWith pat (c :: t) || occursIn pat t

/-- pat occurs as a contiguous substring of s. -/
def strOccurs (pat s : String) : Bool := occursIn pat.data s.data

/-- Model of Python str.endswith: suf is a trailing segment of s. -/
def pyEndsWith (s suf : String) : Bool :=
  beginsWith suf.data.reverse s.data.reverse

/-- The two exception classes distinguished by convert's try/except:
pylas.errors.PylasError (echoed as "ClassName: message") and any other
Exception (echoed as str(e)). -/
inductive PylasExc where
  | pylasError (cls msg : String)
  | otherError (msg : String)
  deriving DecidableEq

/-- The message convert echoes for an error raised by pylas.convert
(main.py lines 93-98). -/
def renderConvertError : PylasExc → String
  | .pylasError cls msg => cls ++ ": " ++ msg
  | .otherError msg => msg

/-- Environment of one convert invocation: the closed capability sets
pylas.supported_point_formats() and pylas.supported_versions(), the
results of pylas.read, pylas.lost_dimensions and pylas.convert, and the
answer the user would give to click.confirm.  An .error result of
readLas models pylas.read or openbin_file raising (uncaught in convert). -/
structure ConvertEnv where
  supportedPointFormats : List Nat
  supportedVersions : List String
  readLas : String → Except String LasData
  lostDimensions : Nat → Nat → List String
  confirmAnswer : Bool
  convertLas : LasData → Option Nat → Option String → Except PylasExc LasData

/-- Rejection message for an unsupported point format (main.py line 67). -/
def pointFormatErrorMsg (t : Nat) : String :=
  "Point format " ++ Nat.repr t ++ " is not supported"

/-- Rejection message for an unsupported LAS version (main.py line 75). -/
def versionErrorMsg (v : String) : String :=
  "LAS version " ++ v ++ " is not supported"

/-- The lossy-conversion confirmation block (main.py lines 81-87): run only
when a target point format was requested and --force is not set; computes
pylas.lost_dimensions and, when the result is non-empty, echoes it and
blocks on click.confirm("Continue ?", abort=True).  Returns the events of
the block and whether execution proceeds (false means click.Abort was
raised by the negative confirmation).  The Python list rendering inside
the echoed message is abstracted to a comma-separated list. -/
def convertGate (env : ConvertEnv) (las : LasData) (pointFormatId : Option Nat)
    (force : Bool) : List Ev × Bool :=
  match pointFormatId with
  | none => ([], true)
  | some t =>
    if force then ([], true)
    else
      let lost := env.lostDimensions las.pointFormatId t
      if lost = [] then ([.computeLoss las.pointFormatId t], true)
      else
        ([.computeLoss las.pointFormatId t,
          .echo ("Converting  will lose: " ++ String.intercalate ", " lost),
          .prompt "Continue ?"],
         env.confirmAnswer)

/-- The try/except around pylas.convert and the final write (main.py lines
89-100): an error from pylas.convert is echoed and turns into click.Abort;
on success the output is opened for writing and written with
do_compress = output.endswith(".laz"). -/
def convertTryWrite (env : ConvertEnv) (las : LasData) (output : String)
    (pointFormatId : Option Nat) (fileVersion : Option String) :
    List Ev × Outcome :=
  match env.convertLas las pointFormatId fileVersion with
  | .error e => ([.echo (renderConvertError e)], .aborted)
  | .ok _ => ([.openWrite output, .writeLas output (pyEndsWith output ".laz")], .ok)

/-- Body of convert after both capability checks passed (main.py lines
80-100): read the input, run the confirmation block, then convert and
write. -/
def convertCmdBody (env : ConvertEnv) (input output : String)
    (pointFormatId : Option Nat) (fileVersion : Option String) (force : Bool) :
    List Ev × Outcome :=
  match env.readLas input with
  | .error e => ([.readInput input], .uncaught e)
  | .ok las =>
    let g := convertGate env las pointFormatId force
    if g.2 then
      let w := convertTryWrite env las output pointFormatId fileVersion
      (.readInput input :: (g.1 ++ w.1), w.2)
    else
      (.readInput input :: g.1, .aborted)

/-- Second capability check of convert (main.py lines 72-78): a requested
file version outside pylas.supported_versions() is echoed and aborts. -/
def convertCmdVersionStage (env : ConvertEnv) (input output : String)
    (pointFormatId : Option Nat) (fileVersion : Option String) (force : Bool) :
    List Ev × Outcome :=
  match fileVersion with
  | none => convertCmdBody env input output pointFormatId none force
  | some v =>
    if v ∈ env.supportedVersions then
      convertCmdBody env input output pointFormatId (some v) force
    else
      ([.echo (versionErrorMsg v)], .aborted)

/-- The convert subcommand (main.py lines 44-100).  First capability check:
a requested point-format id outside pylas.supported_point_formats() is
echoed and aborts before anything else happens. -/
def convertCmd (env : ConvertEnv) (input output : String)
    (pointFormatId : Option Nat) (fileVersion : Option String) (force : Bool) :
    List Ev × Outcome :=
  match pointFormatId with
  | none => convertCmdVersionStage env input output none fileVersion force
  | some t =>
    if t ∈ env.supportedPointFormats then
      convertCmdVersionStage env input output (some t) fileVersion force
    else
      ([.echo (pointFormatErrorMsg t)], .aborted)

/-- The two exception classes distinguished by info's try/except:
fs.errors.ResourceNotFound (the only one caught, main.py line 188) and
any other exception (uncaught, escapes the command). -/
inductive InfoErr where
  | resourceNotFound (msg : String)
  | otherExc (msg : String)
  deriving DecidableEq

/-- Environment of one info invocation.  tryBody gives, for the argument
file, the echo events the try block (open + echo_header + optional
echo_vlrs / echo_points, main.py lines 177-187) produced before
returning (none) or raising (some error).  The body's many echo lines are
carried abstractly since the claims concern the except clause. -/
structure InfoEnv where
  tryBody : String → List Ev × Option InfoErr

/-- The info subcommand (main.py lines 172-189): the try block runs; a
fs.errors.ResourceNotFound raised by it is caught and echoed as
"Error: ..." after which the command returns normally; any other
exception escapes uncaught. -/
def infoCmd (env : InfoEnv) (file : String) : List Ev × Outcome :=
  let r := env.tryBody file
  match r.2 with
  | none => (r.1, .ok)
  | some (.resourceNotFound m) => (r.1 ++ [.echo ("Error: " ++ m)], .ok)
  | some (.otherExc m) => (r.1, .uncaught m)

/-- Environment of one merge invocation: the glob expansion of a single
path argument (os.path.split + fs.open_fs + ffs.glob + the
"{base}{match.path}" formatting, main.py lines 216-219), the result of
pylas.read per source, and the result of pylas.merge. -/
structure MergeEnv where
  glob : String → List String
  readLas : String → Except String LasData
  mergeLas : List LasData → Except String LasData

/-- Source resolution of merge (main.py lines 215-219): exactly one raw
argument is treated as a directory pattern and glob-expanded; any other
argument list is used as given. -/
def resolveSources (glob : String → List String) : List String → List String
  | [p] => glob p
  | files => files

/-- The batch read of merge (main.py line 221): reads each source in
order; the first pylas.read/openbin_file failure stops the batch with
that error (a list comprehension raises at the first failing element).
The IncrementalBar progress output is not recorded in the trace. -/
def readAll (readLas : String → Except String LasData) :
    List String → List Ev × Except String (List LasData)
  | [] => ([], .ok [])
  | f :: rest =>
    match readLas f with
    | .error e => ([.readInput f], .error e)
    | .ok las =>
      let r := readAll readLas rest
      (.readInput f :: r.1, r.2.map (fun l => las :: l))

/-- The merge subcommand (main.py lines 195-230): zero raw arguments raise
click.BadArgumentUsage; one argument is glob-expanded; the batch read runs
outside any try/except, so a read failure escapes uncaught; errors from
pylas.merge (and the write) are caught, echoed and turned into
click.Abort; on success the destination is opened and written with
do_compress = dst.endswith(".laz"). -/
def mergeCmd (env : MergeEnv) (files : List String) (dst : String) :
    List Ev × Outcome :=
  if files = [] then
    ([], .usageFault "Please provide both input files and destination file")
  else
    let r := readAll env.readLas (resolveSources env.glob files)
    match r.2 with
    | .error e => (r.1, .uncaught e)
    | .ok lasFiles =>
      match env.mergeLas lasFiles with
      | .error e => (r.1 ++ [.echo "Merging", .echo e], .aborted)
      | .ok _ =>
        (r.1 ++ [.echo "Merging", .echo "Writing", .openWrite dst,
                 .writeLas dst (pyEndsWith dst ".laz")], .ok)

/-- A concrete environment for convert, used by witnesses: point formats 0
and 3 and version 1.2 supported, every input reads as a format-0 file,
converting format 0 to format 3 drops the gps_time dimension, and the
conversion routine itself succeeds. -/
def sampleConvertEnv : ConvertEnv where
  supportedPointFormats := [0, 3]
  supportedVersions := ["1.2"]
  readLas := fun _ => .ok ⟨0⟩
  lostDimensions := fun s t => if s = 0 ∧ t = 3 then ["gps_time"] else []
  confirmAnswer := false
  convertLas := fun las _ _ => .ok las

/-- A concrete environment for convert in which pylas.convert raises a
PylasError. -/
def failingConvertEnv : ConvertEnv where
  supportedPointFormats := [0, 3]
  supportedVersions := ["1.2"]
  readLas := fun _ => .ok ⟨0⟩
  lostDimensions := fun _ _ => []
  confirmAnswer := true
  convertLas := fun _ _ _ => .error (.pylasError "PylasError" "not convertible")

/-- A concrete environment for info in which opening the file raises
fs.errors.ResourceNotFound. -/
def sampleInfoEnv : InfoEnv where
  tryBody := fun _ => ([], some (.resourceNotFound "resource ghost.las not found"))

/-- A concrete environment for merge: glob expansion matches nothing,
reading bad.las fails while any other source reads as a format-3 file, and
pylas.merge fails exactly on an empty list of files. -/
def sampleMergeEnv : MergeEnv where
  glob := fun _ => []
  readLas := fun p =>
    if p = "bad.las" then .error "resource bad.las not found" else .ok ⟨3⟩
  mergeLas := fun l => if l = [] then .error "cannot merge 0 files" else .ok ⟨3⟩

/-! ## Helper lemmas -/

/-- The confirmation block emits only computeLoss, echo and prompt events:
nothing it emits opens or writes a file. -/
theorem convertGate_not_write (env : ConvertEnv) (las : LasData)
    (pfi : Option Nat) (force : Bool) :
    ∀ e ∈ (convertGate env las pfi force).1, Ev.isWrite e = false := by
  intro e he
  cases pfi with
  | none => simp [convertGate] at he
  | some t =>
    by_cases hf : force
    · simp [convertGate, hf] at he
    · by_cases hl : env.lostDimensions las.pointFormatId t = []
      · simp [convertGate, hf, hl] at he
        subst he; rfl
      · simp [convertGate, hf, hl] at he
        rcases he with h | h | h <;> subst h <;> rfl

/-- With --force set the confirmation block is empty and always proceeds. -/
theorem convertGate_force (env : ConvertEnv) (las : LasData)
    (pfi : Option Nat) : convertGate env las pfi true = ([], true) := by
  cases pfi <;> rfl

/-- The batch read emits only readInput events. -/
theorem readAll_mem_readInput (r : String → Except String LasData) :
    ∀ (srcs : List String), ∀ e ∈ (readAll r srcs).1, ∃ f, e = Ev.readInput f := by
  intro srcs
  induction srcs with
  | nil => intro e he; simp [readAll] at he
  | cons a rest ih =>
    intro e he
    cases hr : r a with
    | error err =>
      simp [readAll, hr] at he
      exact ⟨a, he⟩
    | ok las =>
      simp [readAll, hr] at he
      rcases he with h | h
      · exact ⟨a, h⟩
      · exact ih e h

/-- If the whole batch read succeeded, every individual source read
succeeded. -/
theorem readAll_ok_each (r : String → Except String LasData) :
    ∀ (srcs : List String) (l : List LasData),
      (readAll r srcs).2 = .ok l → ∀ f ∈ srcs, ∃ las, r f = .ok las := by
  intro srcs
  induction srcs with
  | nil => intro l _ f hf; cases hf
  | cons a rest ih =>
    intro l h f hf
    cases hr : r a with
    | error err => simp [readAll, hr] at h
    | ok las =>
      rw [List.mem_cons] at hf
      rcases hf with rfl | hmem
      · exact ⟨las, hr⟩
      · cases h2 : (readAll r rest).2 with
        | error err => simp [readAll, hr, h2, Except.map] at h
        | ok l2 => exact ih l2 h2 f hmem

/-! ## Claims -/

/-- Claim C7: for every list of two or more raw source arguments, source
resolution returns exactly those arguments, preserving argument order:
resolution is the identity (hence idempotent and order-preserving) on
multi-argument input. -/
theorem resolveSources_multi_identity (g : String → List String) :
    ∀ (files : List String), 2 ≤ files.length → resolveSources g files = files
  | [], h => absurd h (by decide)
  | [p], h => absurd h (by simp)
  | _ :: _ :: _, _ => rfl

/-- Witness for C7 at the concrete argument list of the spec. -/
theorem resolveSources_multi_identity_witness :
    2 ≤ (["a.las", "b.las"] : List String).length ∧
    resolveSources (fun _ => []) ["a.las", "b.las"] = ["a.las", "b.las"] :=
  ⟨by decide, resolveSources_multi_identity (fun _ => []) ["a.las", "b.las"] (by decide)⟩

/-- Claim C3: a requested point-format id outside the supported set, or a
requested file version outside the supported set, makes convert echo a
rejection and abort; the whole trace is that one echo, so the input file
is never read. -/
theorem convert_rejects_before_read (env : ConvertEnv)
    (input output : String) (force : Bool) :
    (∀ (t : Nat) (fv : Option String), t ∉ env.supportedPointFormats →
      convertCmd env input output (some t) fv force
        = ([.echo (pointFormatErrorMsg t)], .aborted) ∧
      Ev.readInput input ∉ (convertCmd env input output (some t) fv force).1) ∧
    (∀ (pfi : Option Nat) (v : String),
      (∀ t, pfi = some t → t ∈ env.supportedPointFormats) →
      v ∉ env.supportedVersions →
      convertCmd env input output pfi (some v) force
        = ([.echo (versionErrorMsg v)], .aborted) ∧
      Ev.readInput input ∉ (convertCmd env input output pfi (some v) force).1) := by
  constructor
  · intro t fv ht
    have heq : convertCmd env input output (some t) fv force
        = ([.echo (pointFormatErrorMsg t)], .aborted) := by
      simp [convertCmd, ht]
    exact ⟨heq, by simp [heq]⟩
  · intro pfi v hpf hv
    have heq : convertCmd env input output pfi (some v) force
        = ([.echo (versionErrorMsg v)], .aborted) := by
      cases pfi with
      | none => simp [convertCmd, convertCmdVersionStage, hv]
      | some t => simp [convertCmd, convertCmdVersionStage, hpf t rfl, hv]
    exact ⟨heq, by simp [heq]⟩

/-- Witness for C3: point format 99 and version 1.0 are unsupported in the
sample environment and are rejected with a bare echo. -/
theorem convert_rejects_before_read_witness :
    (convertCmd sampleConvertEnv "in.las" "out.las" (some 99) none false
      = ([.echo (pointFormatErrorMsg 99)], .aborted)) ∧
    (convertCmd sampleConvertEnv "in.las" "out.las" none (some "1.0") false
      = ([.echo (versionErrorMsg "1.0")], .aborted)) :=
  ⟨((convert_rejects_before_read sampleConvertEnv "in.las" "out.las" false).1
      99 none (by decide)).1,
   ((convert_rejects_before_read sampleConvertEnv "in.las" "out.las" false).2
      none "1.0" (fun _ h => nomatch h) (by decide)).1⟩

/-- Claim C1: when a target point format is requested, the computed loss
set is non-empty, --force is not set and the user answers the confirmation
prompt negatively, convert aborts and never opens or writes the output. -/
theorem convert_no_write_without_confirmation (env : ConvertEnv)
    (input output : String) (t : Nat) (fv : Option String) (las : LasData)
    (hread : env.readLas input = .ok las)
    (hloss : env.lostDimensions las.pointFormatId t ≠ [])
    (hconf : env.confirmAnswer = false) :
    (convertCmd env input output (some t) fv false).2 = .aborted ∧
    hasWrite (convertCmd env input output (some t) fv false).1 = false := by
  by_cases hpf : t ∈ env.supportedPointFormats
  · have hbody : (convertCmdBody env input output (some t) fv false).2 = .aborted ∧
        hasWrite (convertCmdBody env input output (some t) fv false).1 = false := by
      simp [convertCmdBody, hread, convertGate, hloss, hconf, hasWrite, Ev.isWrite]
    cases fv with
    | none => simpa [convertCmd, convertCmdVersionStage, hpf] using hbody
    | some v =>
      by_cases hfv : v ∈ env.supportedVersions
      · simpa [convertCmd, convertCmdVersionStage, hpf, hfv] using hbody
      · simp [convertCmd, convertCmdVersionStage, hpf, hfv, hasWrite, Ev.isWrite]
  · simp [convertCmd, hpf, hasWrite, Ev.isWrite]

/-- Witness for C1: in the sample environment the conversion from format 0
to format 3 loses gps_time, the user declines, and nothing is written. -/
theorem convert_no_write_without_confirmation_witness :
    (convertCmd sampleConvertEnv "in.las" "out.las" (some 3) none false).2 = .aborted ∧
    hasWrite (convertCmd sampleConvertEnv "in.las" "out.las" (some 3) none false).1
      = false :=
  convert_no_write_without_confirmation sampleConvertEnv "in.las" "out.las" 3 none ⟨0⟩
    rfl (by decide) rfl

/-- Claim C2 counterexample: with --force set and a lossy target format
requested (converting format 0 to 3 would lose gps_time), convert never
calls pylas.lost_dimensions — the trace goes straight from the read to the
write, with no computeLoss event.  This refutes the claim that the loss
set is still computed under --force. -/
theorem convert_force_counterexample :
    sampleConvertEnv.lostDimensions 0 3 = ["gps_time"] ∧
    convertCmd sampleConvertEnv "in.las" "out.las" (some 3) none true
      = ([.readInput "in.las", .openWrite "out.las", .writeLas "out.las" false], .ok) ∧
    Ev.computeLoss 0 3 ∉
      (convertCmd sampleConvertEnv "in.las" "out.las" (some 3) none true).1 := by
  decide

/-- Claim C2 amended: with --force set, the whole loss-analysis block is
skipped: pylas.lost_dimensions is never called and the confirmation prompt
never appears, in any environment; only the capability checks, the read
and the conversion/write remain. -/
theorem convert_force_skips_loss_block (env : ConvertEnv)
    (input output : String) (pfi : Option Nat) (fv : Option String) :
    (∀ a b, Ev.computeLoss a b ∉ (convertCmd env input output pfi fv true).1) ∧
    (∀ m, Ev.prompt m ∉ (convertCmd env input output pfi fv true).1) := by
  have hw : ∀ (las : LasData) (a b : Nat) (m : String),
      Ev.computeLoss a b ∉ (convertTryWrite env las output pfi fv).1 ∧
      Ev.prompt m ∉ (convertTryWrite env las output pfi fv).1 := by
    intro las a b m
    cases h : env.convertLas las pfi fv <;> simp [convertTryWrite, h]
  have hb : ∀ (a b : Nat) (m : String),
      Ev.computeLoss a b ∉ (convertCmdBody env input output pfi fv true).1 ∧
      Ev.prompt m ∉ (convertCmdBody env input output pfi fv true).1 := by
    intro a b m
    cases h : env.readLas input with
    | error e => simp [convertCmdBody, h]
    | ok las =>
      have := hw las a b m
      simp [convertCmdBody, h, convertGate_force, this.1, this.2]
  have hs : ∀ (a b : Nat) (m : String),
      Ev.computeLoss a b ∉ (convertCmdVersionStage env input output pfi fv true).1 ∧
      Ev.prompt m ∉ (convertCmdVersionStage env input output pfi fv true).1 := by
    intro a b m
    cases fv with
    | none => simpa [convertCmdVersionStage] using hb a b m
    | some v =>
      by_cases hv : v ∈ env.supportedVersions
      · simpa [convertCmdVersionStage, hv] using hb a b m
      · simp [convertCmdVersionStage, hv]
  cases pfi with
  | none =>
    exact ⟨fun a b => by simpa [convertCmd] using (hs a b "").1,
           fun m => by simpa [convertCmd] using (hs 0 0 m).2⟩
  | some t =>
    by_cases ht : t ∈ env.supportedPointFormats
    · exact ⟨fun a b => by simpa [convertCmd, ht] using (hs a b "").1,
             fun m => by simpa [convertCmd, ht] using (hs 0 0 m).2⟩
    · exact ⟨fun a b => by simp [convertCmd, ht],
             fun m => by simp [convertCmd, ht]⟩

/-! String-occurrence lemmas, used to reason about message contents. -/

theorem beginsWith_self_append (l r : List Char) : beginsWith l (l ++ r) = true := by
  induction l with
  | nil => rfl
  | cons a as ih => simp [beginsWith, ih]

theorem occursIn_of_beginsWith (pat s : List Char) (h : beginsWith pat s = true) :
    occursIn pat s = true := by
  cases s with
  | nil => simpa [occursIn] using h
  | cons c t => simp [occursIn, h]

theorem occursIn_cons (pat : List Char) (c : Char) (t : List Char)
    (h : occursIn pat t = true) : occursIn pat (c :: t) = true := by
  simp [occursIn, h]

theorem occursIn_append_right (pat xs ys : List Char) (h : occursIn pat ys = true) :
    occursIn pat (xs ++ ys) = true := by
  induction xs with
  | nil => simpa using h
  | cons c t ih => simpa [List.cons_append] using occursIn_cons pat c (t ++ ys) ih

theorem string_data_append (a b : String) : (a ++ b).data = a.data ++ b.data := rfl

/-- A middle component of a string concatenation occurs in it. -/
theorem strOccurs_mid (pfx mid sfx : String) :
    strOccurs mid (pfx ++ mid ++ sfx) = true := by
  unfold strOccurs
  have h : (pfx ++ mid ++ sfx).data = pfx.data ++ (mid.data ++ sfx.data) := by
    simp [string_data_append, List.append_assoc]
  rw [h]
  exact occursIn_append_right _ _ _
    (occursIn_of_beginsWith _ _ (beginsWith_self_append _ _))

/-- Claim C4 counterexample: in the sample environment the supported point
formats are 0 and 3, yet the rejection echoed for the unsupported format
99 is exactly "Point format 99 is not supported" — the decimal rendering
of neither supported id occurs in it, so the message does not include the
supported set. -/
theorem convert_reject_message_counterexample :
    sampleConvertEnv.supportedPointFormats = [0, 3] ∧
    (convertCmd sampleConvertEnv "in.las" "out.las" (some 99) none false).1
      = [.echo "Point format 99 is not supported"] ∧
    strOccurs "0" "Point format 99 is not supported" = false ∧
    strOccurs "3" "Point format 99 is not supported" = false := by
  decide

/-- Claim C4 amended: the rejection message names the offending identifier
(its rendering occurs in the message) but is a function of that identifier
alone: it does not mention the supported set, which appears only in the
option help text.  Both the point-format and the version rejection behave
this way. -/
theorem convert_reject_message_content (env : ConvertEnv)
    (input output : String) (fv : Option String) (force : Bool)
    (t : Nat) (v : String)
    (ht : t ∉ env.supportedPointFormats) (hv : v ∉ env.supportedVersions) :
    ((convertCmd env input output (some t) fv force).1
        = [.echo (pointFormatErrorMsg t)] ∧
      strOccurs (Nat.repr t) (pointFormatErrorMsg t) = true) ∧
    ((convertCmd env input output none (some v) force).1
        = [.echo (versionErrorMsg v)] ∧
      strOccurs v (versionErrorMsg v) = true) := by
  refine ⟨⟨by simp [convertCmd, ht], ?_⟩,
          ⟨by simp [convertCmd, convertCmdVersionStage, hv], ?_⟩⟩
  · exact strOccurs_mid "Point format " (Nat.repr t) " is not supported"
  · exact strOccurs_mid "LAS version " v " is not supported"

/-- Witness for the amended C4 at the unsupported format 99 and version
1.0 of the sample environment. -/
theorem convert_reject_message_content_witness :
    ((convertCmd sampleConvertEnv "in.las" "out.las" (some 99) none false).1
        = [.echo (pointFormatErrorMsg 99)] ∧
      strOccurs (Nat.repr 99) (pointFormatErrorMsg 99) = true) ∧
    ((convertCmd sampleConvertEnv "in.las" "out.las" none (some "1.0") false).1
        = [.echo (versionErrorMsg "1.0")] ∧
      strOccurs "1.0" (versionErrorMsg "1.0") = true) :=
  convert_reject_message_content sampleConvertEnv "in.las" "out.las" none false
    99 "1.0" (by decide) (by decide)

/-- Claim C5 counterexample: a missing file given to info is caught and
rendered, but the command then returns normally — the process exits with
code 0, not non-zero as the claim requires. -/
theorem info_missing_file_exits_zero :
    infoCmd sampleInfoEnv "ghost.las"
      = ([.echo "Error: resource ghost.las not found"], .ok) ∧
    exitCode (infoCmd sampleInfoEnv "ghost.las").2 = 0 := by
  decide

/-- Claim C5 amended: a missing file given to info is caught and rendered
but the process exits zero; a source that cannot be opened during merge's
batch read is not caught by the command at all — it propagates as an
uncaught exception (non-zero exit, but no rendered message in the trace). -/
theorem error_propagation_actual (ienv : InfoEnv) (file m : String) (evs : List Ev)
    (h1 : ienv.tryBody file = (evs, some (.resourceNotFound m)))
    (menv : MergeEnv) (files : List String) (dst e : String)
    (h2 : files ≠ [])
    (h3 : (readAll menv.readLas (resolveSources menv.glob files)).2 = .error e) :
    (infoCmd ienv file = (evs ++ [.echo ("Error: " ++ m)], .ok) ∧
      exitCode (infoCmd ienv file).2 = 0) ∧
    ((mergeCmd menv files dst).2 = .uncaught e ∧
      (∀ m2, Ev.echo m2 ∉ (mergeCmd menv files dst).1) ∧
      exitCode (mergeCmd menv files dst).2 ≠ 0) := by
  have hinfo : infoCmd ienv file = (evs ++ [.echo ("Error: " ++ m)], .ok) := by
    simp [infoCmd, h1]
  have hmerge : mergeCmd menv files dst
      = ((readAll menv.readLas (resolveSources menv.glob files)).1, .uncaught e) := by
    simp [mergeCmd, h2, h3]
  refine ⟨⟨hinfo, by simp [hinfo, exitCode]⟩, ⟨by simp [hmerge], ?_, by simp [hmerge, exitCode]⟩⟩
  intro m2 hm
  rw [hmerge] at hm
  obtain ⟨f, hf⟩ := readAll_mem_readInput menv.readLas _ _ hm
  cases hf

/-- Witness for the amended C5: the sample info environment hits a missing
file; the sample merge environment fails reading bad.las. -/
theorem error_propagation_actual_witness :
    (infoCmd sampleInfoEnv "ghost.las"
        = ([] ++ [.echo ("Error: " ++ "resource ghost.las not found")], .ok) ∧
      exitCode (infoCmd sampleInfoEnv "ghost.las").2 = 0) ∧
    ((mergeCmd sampleMergeEnv ["good.las", "bad.las"] "m.las").2
        = .uncaught "resource bad.las not found" ∧
      (∀ m2, Ev.echo m2 ∉ (mergeCmd sampleMergeEnv ["good.las", "bad.las"] "m.las").1) ∧
      exitCode (mergeCmd sampleMergeEnv ["good.las", "bad.las"] "m.las").2 ≠ 0) :=
  error_propagation_actual sampleInfoEnv "ghost.las" "resource ghost.las not found" []
    rfl sampleMergeEnv ["good.las", "bad.las"] "m.las" "resource bad.las not found"
    (by decide) rfl

/-- Claim C6 counterexample: a single directory-pattern argument matching
no files does not raise a usage error — merge proceeds, hands the empty
list to pylas.merge, and that failure is echoed and aborted (not a usage
error). -/
theorem merge_empty_glob_counterexample :
    sampleMergeEnv.glob "empty_dir" = [] ∧
    mergeCmd sampleMergeEnv ["empty_dir"] "merged.las"
      = ([.echo "Merging", .echo "cannot merge 0 files"], .aborted) ∧
    (mergeCmd sampleMergeEnv ["empty_dir"] "merged.las").2.isUsage = false := by
  decide

/-- Claim C6 amended: merge raises its usage error exactly when zero raw
arguments are supplied; a single pattern argument that matches no files is
not a usage error — merge proceeds with the empty source list and calls
the external merge routine on it. -/
theorem merge_usage_only_for_zero_args (env : MergeEnv) (dst : String) :
    mergeCmd env [] dst
      = ([], .usageFault "Please provide both input files and destination file") ∧
    (∀ p, env.glob p = [] → (mergeCmd env [p] dst).2.isUsage = false) := by
  refine ⟨by simp [mergeCmd], ?_⟩
  intro p h
  cases hm : env.mergeLas [] <;>
    simp [mergeCmd, resolveSources, h, readAll, hm, Outcome.isUsage]

/-- Witness for the amended C6: the sample glob matches nothing and merge
does not report a usage error. -/
theorem merge_usage_only_for_zero_args_witness :
    (mergeCmd sampleMergeEnv ["empty_dir"] "merged.las").2.isUsage = false :=
  (merge_usage_only_for_zero_args sampleMergeEnv "merged.las").2 "empty_dir" rfl

/-- Claim C8: every write event that convert or merge can emit targets the
command's output argument and selects compression exactly when that name
ends with .laz; the suffix test itself holds on a .laz name and fails on a
.las name. -/
theorem write_compress_iff_laz_suffix
    (cenv : ConvertEnv) (input output : String) (pfi : Option Nat)
    (fv : Option String) (force : Bool)
    (menv : MergeEnv) (files : List String) (dst : String) :
    (∀ p c, Ev.writeLas p c ∈ (convertCmd cenv input output pfi fv force).1 →
      p = output ∧ c = pyEndsWith output ".laz") ∧
    (∀ p c, Ev.writeLas p c ∈ (mergeCmd menv files dst).1 →
      p = dst ∧ c = pyEndsWith dst ".laz") ∧
    pyEndsWith "stormwind.laz" ".laz" = true ∧
    pyEndsWith "stormwind.las" ".laz" = false := by
  refine ⟨?_, ?_, by decide, by decide⟩
  · intro p c hm
    have hbody : Ev.writeLas p c ∈ (convertCmdBody cenv input output pfi fv force).1 →
        p = output ∧ c = pyEndsWith output ".laz" := by
      intro hb
      cases hr : cenv.readLas input with
      | error e => simp [convertCmdBody, hr] at hb
      | ok las =>
        rw [convertCmdBody, hr] at hb
        by_cases hg : (convertGate cenv las pfi force).2
        · simp only [hg, if_true, List.mem_cons, List.mem_append] at hb
          rcases hb with h | h | h
          · cases h
          · have := convertGate_not_write cenv las pfi force _ h
            simp [Ev.isWrite] at this
          · cases hw : cenv.convertLas las pfi fv <;>
              simp [convertTryWrite, hw] at h
            exact ⟨h.1, h.2⟩
        · simp only [hg, if_false, Bool.false_eq_true, List.mem_cons] at hb
          rcases hb with h | h
          · cases h
          · have := convertGate_not_write cenv las pfi force _ h
            simp [Ev.isWrite] at this
    cases pfi with
    | none =>
      rw [convertCmd] at hm
      cases fv with
      | none => exact hbody (by simpa [convertCmdVersionStage] using hm)
      | some v =>
        by_cases hv2 : v ∈ cenv.supportedVersions
        · exact hbody (by simpa [convertCmdVersionStage, hv2] using hm)
        · simp [convertCmdVersionStage, hv2] at hm
    | some t =>
      by_cases ht : t ∈ cenv.supportedPointFormats
      · rw [convertCmd] at hm
        simp only [ht, if_true] at hm
        cases fv with
        | none => exact hbody (by simpa [convertCmdVersionStage] using hm)
        | some v =>
          by_cases hv2 : v ∈ cenv.supportedVersions
          · exact hbody (by simpa [convertCmdVersionStage, hv2] using hm)
          · simp [convertCmdVersionStage, hv2] at hm
      · simp [convertCmd, ht] at hm
  · intro p c hm
    by_cases h0 : files = []
    · simp [mergeCmd, h0] at hm
    · cases hr : (readAll menv.readLas (resolveSources menv.glob files)).2 with
      | error e =>
        have heq : mergeCmd menv files dst
            = ((readAll menv.readLas (resolveSources menv.glob files)).1,
               .uncaught e) := by
          simp [mergeCmd, h0, hr]
        rw [heq] at hm
        obtain ⟨f, hf⟩ := readAll_mem_readInput menv.readLas _ _ hm
        cases hf
      | ok lasFiles =>
        cases hml : menv.mergeLas lasFiles with
        | error e =>
          have heq : mergeCmd menv files dst
              = ((readAll menv.readLas (resolveSources menv.glob files)).1
                  ++ [.echo "Merging", .echo e], .aborted) := by
            simp [mergeCmd, h0, hr, hml]
          rw [heq] at hm
          rcases List.mem_append.mp hm with h | h
          · obtain ⟨f, hf⟩ := readAll_mem_readInput menv.readLas _ _ h
            cases hf
          · simp at h
        | ok merged =>
          have heq : mergeCmd menv files dst
              = ((readAll menv.readLas (resolveSources menv.glob files)).1
                  ++ [.echo "Merging", .echo "Writing", .openWrite dst,
                      .writeLas dst (pyEndsWith dst ".laz")], .ok) := by
            simp [mergeCmd, h0, hr, hml]
          rw [heq] at hm
          rcases List.mem_append.mp hm with h | h
          · obtain ⟨f, hf⟩ := readAll_mem_readInput menv.readLas _ _ h
            cases hf
          · simp at h
            exact ⟨h.1, h.2⟩

/-- Witness for C8: convert writing stormwind.laz emits a compressed
write of that name. -/
theorem write_compress_iff_laz_suffix_witness :
    "stormwind.laz" = "stormwind.laz" ∧ true = pyEndsWith "stormwind.laz" ".laz" :=
  (write_compress_iff_laz_suffix sampleConvertEnv "stormwind.las" "stormwind.laz"
      none none false sampleMergeEnv ["a.las", "b.las"] "m.las").1
    "stormwind.laz" true (by decide)

/-- Claim C9: when the capability checks pass, the input was read and the
confirmation block proceeded, an error raised by pylas.convert is echoed,
the command aborts (non-zero exit), and the output is never opened or
written. -/
theorem convert_error_aborts_without_write (env : ConvertEnv)
    (input output : String) (pfi : Option Nat) (fv : Option String) (force : Bool)
    (las : LasData) (e : PylasExc)
    (hpf : ∀ t, pfi = some t → t ∈ env.supportedPointFormats)
    (hfv : ∀ v, fv = some v → v ∈ env.supportedVersions)
    (hread : env.readLas input = .ok las)
    (hgate : (convertGate env las pfi force).2 = true)
    (hconv : env.convertLas las pfi fv = .error e) :
    (convertCmd env input output pfi fv force).2 = .aborted ∧
    Ev.echo (renderConvertError e) ∈ (convertCmd env input output pfi fv force).1 ∧
    hasWrite (convertCmd env input output pfi fv force).1 = false ∧
    exitCode (convertCmd env input output pfi fv force).2 ≠ 0 := by
  have hcmd : convertCmd env input output pfi fv force
      = convertCmdBody env input output pfi fv force := by
    cases pfi with
    | none =>
      cases fv with
      | none => simp [convertCmd, convertCmdVersionStage]
      | some v => simp [convertCmd, convertCmdVersionStage, hfv v rfl]
    | some t =>
      cases fv with
      | none => simp [convertCmd, convertCmdVersionStage, hpf t rfl]
      | some v => simp [convertCmd, convertCmdVersionStage, hpf t rfl, hfv v rfl]
  have hbody : convertCmdBody env input output pfi fv force
      = (.readInput input :: ((convertGate env las pfi force).1
          ++ [.echo (renderConvertError e)]), .aborted) := by
    simp [convertCmdBody, hread, hgate, convertTryWrite, hconv]
  rw [hcmd, hbody]
  refine ⟨rfl, by simp, ?_, by simp [exitCode]⟩
  simp only [hasWrite, List.any_cons, List.any_append, Bool.or_eq_false_iff]
  refine ⟨rfl, ?_, by simp [Ev.isWrite]⟩
  rw [List.any_eq_false]
  intro x hx
  simp [convertGate_not_write env las pfi force x hx]

/-- Witness for C9: in the failing environment pylas.convert raises a
PylasError, which is echoed and aborts without touching the output. -/
theorem convert_error_aborts_without_write_witness :
    (convertCmd failingConvertEnv "in.las" "out.las" (some 3) none false).2
      = .aborted ∧
    Ev.echo (renderConvertError (.pylasError "PylasError" "not convertible"))
      ∈ (convertCmd failingConvertEnv "in.las" "out.las" (some 3) none false).1 ∧
    hasWrite (convertCmd failingConvertEnv "in.las" "out.las" (some 3) none false).1
      = false ∧
    exitCode (convertCmd failingConvertEnv "in.las" "out.las" (some 3) none false).2
      ≠ 0 :=
  convert_error_aborts_without_write failingConvertEnv "in.las" "out.las" (some 3)
    none false ⟨0⟩ (.pylasError "PylasError" "not convertible")
    (fun t h => by cases h; decide) (fun v h => nomatch h) rfl rfl rfl

/-- Claim C10: if merge touched the destination at all (opened or wrote
it), then the whole batch read succeeded — every resolved source was
successfully read — and the external merge routine succeeded. -/
theorem merge_write_requires_success (env : MergeEnv) (files : List String)
    (dst : String)
    (h : hasWrite (mergeCmd env files dst).1 = true) :
    ∃ lasFiles,
      (readAll env.readLas (resolveSources env.glob files)).2 = .ok lasFiles ∧
      (∀ f ∈ resolveSources env.glob files, ∃ las, env.readLas f = .ok las) ∧
      ∃ merged, env.mergeLas lasFiles = .ok merged := by
  have hnr : hasWrite (readAll env.readLas (resolveSources env.glob files)).1
      = false := by
    rw [hasWrite, List.any_eq_false]
    intro x hx
    obtain ⟨f, hf⟩ := readAll_mem_readInput env.readLas _ _ hx
    simp [hf, Ev.isWrite]
  by_cases h0 : files = []
  · rw [show mergeCmd env files dst
        = ([], .usageFault "Please provide both input files and destination file")
      from by simp [mergeCmd, h0]] at h
    simp [hasWrite] at h
  · cases hr : (readAll env.readLas (resolveSources env.glob files)).2 with
    | error e =>
      rw [show mergeCmd env files dst
          = ((readAll env.readLas (resolveSources env.glob files)).1, .uncaught e)
        from by simp [mergeCmd, h0, hr]] at h
      rw [hnr] at h
      cases h
    | ok lasFiles =>
      cases hml : env.mergeLas lasFiles with
      | error e =>
        rw [show mergeCmd env files dst
            = ((readAll env.readLas (resolveSources env.glob files)).1
                ++ [.echo "Merging", .echo e], .aborted)
          from by simp [mergeCmd, h0, hr, hml]] at h
        rw [hasWrite, List.any_append] at h
        rw [hasWrite] at hnr
        simp [hnr, Ev.isWrite] at h
      | ok merged =>
        exact ⟨lasFiles, rfl, readAll_ok_each env.readLas _ lasFiles hr,
               merged, hml⟩

/-- Witness for C10: a successful two-file merge writes merged.laz, and
the theorem recovers that both reads and the merge succeeded. -/
theorem merge_write_requires_success_witness :
    ∃ lasFiles,
      (readAll sampleMergeEnv.readLas
          (resolveSources sampleMergeEnv.glob ["good.las", "fine.las"])).2
        = .ok lasFiles ∧
      (∀ f ∈ resolveSources sampleMergeEnv.glob ["good.las", "fine.las"],
        ∃ las, sampleMergeEnv.readLas f = .ok las) ∧
      ∃ merged, sampleMergeEnv.mergeLas lasFiles = .ok merged :=
  merge_write_requires_success sampleMergeEnv ["good.las", "fine.las"] "merged.laz"
    (by decide)

end PylasCli
